import Mathlib

/-!
Verification development for the praye.js prayer-times library.

The numeric type of the source (JavaScript `number`) is idealized as the
real numbers `ℝ`.  The one JavaScript behaviour that matters for the
specification and cannot be idealized away is the not-a-number value
produced by `Math.acos` outside `[-1, 1]` (and by division by zero feeding
into it): computations that can produce NaN are embedded as `Option ℝ`,
with `none` playing the role of NaN and every arithmetic operation
propagating `none`, while an order comparison against `none` is false,
exactly as every JavaScript comparison against NaN is false.

Sources embedded below: `src/dmath.ts`, `src/astronomy.ts`, `src/prayer.ts`.
-/

noncomputable section

namespace Praye

/-- Degree to radian conversion (`toRadians` in `src/dmath.ts`). -/
def toRadians (degrees : ℝ) : ℝ := degrees * (Real.pi / 180)

/-- Radian to degree conversion (`toDegrees` in `src/dmath.ts`). -/
def toDegrees (radians : ℝ) : ℝ := radians * 180 / Real.pi

/-- Degree-based sine (`sin` in `src/dmath.ts`). -/
def sin (degrees : ℝ) : ℝ := Real.sin (toRadians degrees)

/-- Degree-based cosine (`cos` in `src/dmath.ts`). -/
def cos (degrees : ℝ) : ℝ := Real.cos (toRadians degrees)

/-- Degree-based tangent (`tan` in `src/dmath.ts`). -/
def tan (degrees : ℝ) : ℝ := Real.tan (toRadians degrees)

/-- Arcsine returning degrees (`arcsin` in `src/dmath.ts`). -/
def arcsin (x : ℝ) : ℝ := toDegrees (Real.arcsin x)

/-- Arccosine returning degrees (`arccos` in `src/dmath.ts`).  The source
applies `Math.acos` whose out-of-domain NaN is handled at the call sites
that can reach it (see `sunAngleTime`); in-domain it agrees with
`Real.arccos`. -/
def arccos (x : ℝ) : ℝ := toDegrees (Real.arccos x)

/-- Arccotangent returning degrees (`arccot` in `src/dmath.ts`),
`atan (1 / x)` as in the source. -/
def arccot (x : ℝ) : ℝ := toDegrees (Real.arctan (1 / x))

/-- Two-argument arctangent returning degrees (`arctan2` in
`src/dmath.ts`).  `Math.atan2 y x` agrees with the complex argument of
`x + y i`, both valued in `(-π, π]`. -/
def arctan2 (y x : ℝ) : ℝ := toDegrees (Complex.arg (Complex.mk x y))

/-- JavaScript truncation toward zero, as a real number; `a % b` in
JavaScript is `a - b * jsTrunc (a / b)` for finite operands. -/
def jsTrunc (x : ℝ) : ℝ := if 0 ≤ x then ((⌊x⌋ : ℤ) : ℝ) else ((⌈x⌉ : ℤ) : ℝ)

/-- Range normalization (`fix` in `src/dmath.ts`): `const fixed = a % b;
return fixed < 0 ? fixed + b : fixed;` with the JavaScript symmetric
remainder spelled out via `jsTrunc`. -/
def fix (a b : ℝ) : ℝ :=
  let fixed := a - b * jsTrunc (a / b)
  if fixed < 0 then fixed + b else fixed

/-- Angle normalization to `[0, 360)` (`fixAngle` in `src/dmath.ts`). -/
def fixAngle (angle : ℝ) : ℝ := fix angle 360

/-- Hour normalization to `[0, 24)` (`fixHour` in `src/dmath.ts`). -/
def fixHour (hour : ℝ) : ℝ := fix hour 24

/-- For a positive modulus, `fix` computes the true (floor-based) modulo. -/
theorem fix_eq_floor_mod (a b : ℝ) (hb : 0 < b) :
    fix a b = a - b * ⌊a / b⌋ := by
  have hb0 : b ≠ 0 := ne_of_gt hb
  unfold fix jsTrunc
  by_cases hq : 0 ≤ a / b
  · rw [if_pos hq]
    have hkey : a - b * ((⌊a / b⌋ : ℤ) : ℝ) = b * Int.fract (a / b) := by
      rw [Int.fract]
      field_simp
      try ring
    have hnn : ¬ a - b * ((⌊a / b⌋ : ℤ) : ℝ) < 0 := by
      rw [hkey]
      exact not_lt.2 (mul_nonneg hb.le (Int.fract_nonneg _))
    rw [if_neg hnn]
  · rw [if_neg hq]
    by_cases hfr : Int.fract (a / b) = 0
    · have hself : a / b = ((⌊a / b⌋ : ℤ) : ℝ) := by
        have := Int.fract (a / b)
        rw [Int.fract] at hfr
        linarith
      have hceil : ⌈a / b⌉ = ⌊a / b⌋ := by
        rw [hself, Int.ceil_intCast, Int.floor_intCast]
      have hz : a - b * ((⌈a / b⌉ : ℤ) : ℝ) = 0 := by
        rw [hceil]
        have : a = b * ((⌊a / b⌋ : ℤ) : ℝ) := by
          have h1 : a / b = ((⌊a / b⌋ : ℤ) : ℝ) := hself
          field_simp at h1
          linarith [h1]
        linarith
      rw [hz]
      rw [if_neg (lt_irrefl 0)]
      have h1 : a / b = ((⌊a / b⌋ : ℤ) : ℝ) := hself
      have : a = b * ((⌊a / b⌋ : ℤ) : ℝ) := by
        field_simp at h1
        linarith
      linarith
    · have hfrpos : 0 < Int.fract (a / b) :=
        lt_of_le_of_ne (Int.fract_nonneg _) (Ne.symm hfr)
      have hceil : ⌈a / b⌉ = ⌊a / b⌋ + 1 := by
        rw [Int.ceil_eq_iff]
        constructor
        · push_cast
          rw [Int.fract] at hfrpos
          linarith
        · push_cast
          exact (Int.lt_floor_add_one (a / b)).le
      have hfr1 : Int.fract (a / b) < 1 := Int.fract_lt_one _
      have hkey : a - b * ((⌊a / b⌋ : ℤ) : ℝ) = b * Int.fract (a / b) := by
        rw [Int.fract]
        field_simp
        try ring
      have hneg : a - b * ((⌈a / b⌉ : ℤ) : ℝ) < 0 := by
        rw [hceil]
        push_cast
        have : a - b * (((⌊a / b⌋ : ℤ) : ℝ) + 1) =
            b * Int.fract (a / b) - b := by
          rw [mul_add, mul_one]
          linarith [hkey]
        rw [this]
        nlinarith [hfr1, hb]
      rw [if_pos hneg, hceil]
      push_cast
      ring

/-- The floor-based modulo form of `fix`, as a fraction of the modulus. -/
theorem fix_eq_fract (a b : ℝ) (hb : 0 < b) :
    fix a b = b * Int.fract (a / b) := by
  rw [fix_eq_floor_mod a b hb, Int.fract]
  field_simp
  try ring

theorem fix_nonneg (a b : ℝ) (hb : 0 < b) : 0 ≤ fix a b := by
  rw [fix_eq_fract a b hb]
  exact mul_nonneg hb.le (Int.fract_nonneg _)

theorem fix_lt (a b : ℝ) (hb : 0 < b) : fix a b < b := by
  rw [fix_eq_fract a b hb]
  calc b * Int.fract (a / b) < b * 1 :=
        (mul_lt_mul_left hb).2 (Int.fract_lt_one _)
    _ = b := mul_one b

theorem fix_add_int_mul (a b : ℝ) (k : ℤ) (hb : 0 < b) :
    fix (a + k * b) b = fix a b := by
  have hb0 : b ≠ 0 := ne_of_gt hb
  rw [fix_eq_fract a b hb, fix_eq_fract _ b hb]
  have : (a + (k : ℝ) * b) / b = a / b + (k : ℝ) := by
    field_simp
  rw [this, Int.fract_add_int]

/-! Option-valued arithmetic: `none` models the JavaScript NaN outcome. -/

/-- Addition propagating NaN. -/
def oadd : Option ℝ → Option ℝ → Option ℝ
  | some a, some b => some (a + b)
  | _, _ => none

/-- Subtraction propagating NaN. -/
def osub : Option ℝ → Option ℝ → Option ℝ
  | some a, some b => some (a - b)
  | _, _ => none

/-- A JavaScript `>` comparison: false whenever either side is NaN. -/
def jsGt : Option ℝ → Option ℝ → Prop
  | some a, some b => b < a
  | _, _ => False

instance (a b : Option ℝ) : Decidable (jsGt a b) :=
  match a, b with
  | some a, some b => inferInstanceAs (Decidable (b < a))
  | none, none => isFalse fun h => h
  | none, some _ => isFalse fun h => h
  | some _, none => isFalse fun h => h

@[simp] theorem oadd_some_some (a b : ℝ) :
    oadd (some a) (some b) = some (a + b) := rfl

@[simp] theorem oadd_none_left (b : Option ℝ) : oadd none b = none := by
  cases b <;> rfl

@[simp] theorem oadd_none_right (a : Option ℝ) : oadd a none = none := by
  cases a <;> rfl

@[simp] theorem osub_some_some (a b : ℝ) :
    osub (some a) (some b) = some (a - b) := rfl

@[simp] theorem osub_none_left (b : Option ℝ) : osub none b = none := by
  cases b <;> rfl

@[simp] theorem osub_none_right (a : Option ℝ) : osub a none = none := by
  cases a <;> rfl

@[simp] theorem jsGt_none_left (b : Option ℝ) : ¬ jsGt none b := by
  cases b <;> exact fun h => h

@[simp] theorem jsGt_none_right (a : Option ℝ) : ¬ jsGt a none := by
  cases a <;> exact fun h => h

@[simp] theorem jsGt_some_some (a b : ℝ) : jsGt (some a) (some b) ↔ b < a :=
  Iff.rfl

/-! The astronomy layer (`src/astronomy.ts`). -/

/-- A calendar date as the source reads it off a JavaScript `Date`:
`getFullYear()`, `getMonth()` (zero-based) and `getDate()`. -/
structure JSDate where
  year : ℤ
  monthIndex : ℤ
  day : ℤ

/-- Julian day of a calendar date (`getJulianDay` in `src/astronomy.ts`). -/
def getJulianDay (date : JSDate) : ℝ :=
  let month0 := date.monthIndex + 1
  let year := if month0 < 3 then date.year - 1 else date.year
  let month := if month0 < 3 then month0 + 12 else month0
  ((⌊(365.2425 : ℝ) * (year : ℝ) + 30.6001 * (month : ℝ)⌋ : ℤ) : ℝ) +
    (date.day : ℝ) + 1721027.5

/-- Solar declination and equation of time (`sunPosition` in
`src/astronomy.ts`). -/
def sunPosition (jd : ℝ) : ℝ × ℝ :=
  let d := jd - 2451545
  let q := fixAngle (280.46061837 + 0.98564736 * d)
  let g := fixAngle (357.528 + 0.98560028 * d)
  let L := fixAngle (q + 1.915 * sin g + 0.02 * sin (2 * g))
  let e := 23.439 - 0.00000036 * d
  (arcsin (sin e * sin L),
    q / 15 - fixHour (arctan2 (cos e * sin L) (cos L) / 15))

/-- Local solar noon (`midDay` in `src/astronomy.ts`). -/
def midDay (julianDate time : ℝ) : ℝ :=
  fixHour (12 - (sunPosition (julianDate + time)).2)

/-- Sun-angle crossing solver (`sunAngleTime` in `src/astronomy.ts`).
The source computes `(1/15) * arccos (num / den)` and returns NaN exactly
when the division produces something outside the arccosine domain:
`den = 0` makes the JavaScript quotient `±Infinity` or `NaN`, and an
in-range quotient outside `[-1, 1]` makes `Math.acos` return NaN.  Both
NaN outcomes are embedded as `none`. -/
def sunAngleTime (julianDate latitude angle time : ℝ) (ccw : Bool) :
    Option ℝ :=
  let decl := (sunPosition (julianDate + time)).1
  let eqt := (sunPosition (julianDate + time)).2
  let num := -sin angle - sin decl * sin latitude
  let den := cos decl * cos latitude
  if den = 0 ∨ num / den < -1 ∨ 1 < num / den then none
  else
    some (fixHour (12 - eqt) +
      (if ccw then -(1 / 15 * arccos (num / den))
       else 1 / 15 * arccos (num / den)))

/-- Earth radius in meters, as in `src/astronomy.ts`. -/
def EARTH_RADIUS : ℝ := 6371008.7714

/-- Effective rise/set depression angle (`riseSetAngle` in
`src/astronomy.ts`); total for elevations above `-EARTH_RADIUS`, which is
the domain the claims use. -/
def riseSetAngle (elevation : ℝ) : ℝ :=
  0.833 + arccos (EARTH_RADIUS / (EARTH_RADIUS + elevation))

/-! The prayer layer (`src/prayer.ts`). -/

/-- The tag of a `CalculationType`: degrees or minutes. -/
inductive CalculationTag where
  | angle
  | minute
deriving DecidableEq

/-- A tagged angle/minute value (`CalculationType` in `src/prayer.ts`). -/
structure CalculationType where
  type : CalculationTag
  value : ℝ

/-- The midnight calculation method (`MidnightMethod` in `src/prayer.ts`). -/
inductive MidnightMethod where
  | Standard
  | Jafari
deriving DecidableEq

/-- The asr juristic method (`AsrJuristic` in `src/prayer.ts`); the
`const enum` values are the shadow factors 1 and 2. -/
inductive AsrJuristic where
  | Standard
  | Hanafi
deriving DecidableEq

/-- Numeric value of the `AsrJuristic` const enum member, as passed to
`asrTime` by `getTimes`. -/
def AsrJuristic.factor : AsrJuristic → ℝ
  | .Standard => 1
  | .Hanafi => 2

/-- The method to use for higher latitudes (`HightLatMethods` in
`src/prayer.ts`, keeping the source's spelling). -/
inductive HightLatMethods where
  | NightMiddle
  | AngleBased
  | OneSeventh
deriving DecidableEq

/-- A possibly partial calculation method (`CalculationMethod` in
`src/prayer.ts`): optional fields are `Option`, required fields plain. -/
structure CalculationMethod where
  imsak : Option CalculationType
  fajr : ℝ
  dhuhr : Option ℝ
  asr : Option AsrJuristic
  maghrib : Option CalculationType
  isha : CalculationType
  midnight : Option MidnightMethod

/-- A fully specified calculation method
(`Required<CalculationMethod>` in `src/prayer.ts`). -/
structure FullCalculationMethod where
  imsak : CalculationType
  fajr : ℝ
  dhuhr : ℝ
  asr : AsrJuristic
  maghrib : CalculationType
  isha : CalculationType
  midnight : MidnightMethod

/-- The subtype coercion `Required<CalculationMethod> <: CalculationMethod`
that TypeScript applies implicitly when a completed method is passed where
a partial one is expected. -/
def FullCalculationMethod.toCalculationMethod (m : FullCalculationMethod) :
    CalculationMethod :=
  ⟨some m.imsak, m.fajr, some m.dhuhr, some m.asr, some m.maghrib,
    m.isha, some m.midnight⟩

/-- Defaulting of a partial method (`createCalculationMethod` in
`src/prayer.ts`): each `??` default is a `getD`. -/
def createCalculationMethod (method : CalculationMethod) :
    FullCalculationMethod :=
  { imsak := method.imsak.getD ⟨.minute, 10⟩
    fajr := method.fajr
    dhuhr := method.dhuhr.getD 0
    asr := method.asr.getD .Standard
    maghrib := method.maghrib.getD ⟨.minute, 0⟩
    isha := method.isha
    midnight := method.midnight.getD .Standard }

/-- Own property names of `Object.prototype`.  A JavaScript object
literal inherits these, so an untyped index access with one of these
names climbs the prototype chain and returns the inherited member rather
than `undefined`. -/
def objectPrototypeMembers : List String :=
  ["constructor", "hasOwnProperty", "isPrototypeOf",
    "propertyIsEnumerable", "toLocaleString", "toString", "valueOf",
    "__defineGetter__", "__defineSetter__", "__lookupGetter__",
    "__lookupSetter__", "__proto__"]

/-- Runtime outcome of the untyped lookup `{...}[method]` in
`getCalculationMethod`: one of the eight table entries, a member
inherited from `Object.prototype` (a defined function or object that the
`as CalculationMethod | undefined` cast lets through unchecked, but not a
calculation method), or `undefined`. -/
inductive MethodLookup where
  | entry (m : CalculationMethod)
  | inheritedMember
  | missing

/-- Preset lookup (`getCalculationMethod` in `src/prayer.ts`).  The source
indexes an object literal keyed by the eight preset names: an own key
yields its entry, any `Object.prototype` member name yields the inherited
member, and every other string yields `undefined`, which the
`as CalculationMethod | undefined` cast acknowledges. -/
def getCalculationMethod (method : String) (isRamadan : Bool := false) :
    MethodLookup :=
  if method = "MWL" then
    .entry ⟨none, 18, none, none, none, ⟨.angle, 17⟩, none⟩
  else if method = "ISNA" then
    .entry ⟨none, 15, none, none, none, ⟨.angle, 15⟩, none⟩
  else if method = "Egypt" then
    .entry ⟨none, 19.5, none, none, none, ⟨.angle, 17.5⟩, none⟩
  else if method = "Makkah" then
    .entry ⟨none, 19.5, none, none, none,
      ⟨.minute, if isRamadan then 120 else 90⟩, none⟩
  else if method = "Karachi" then
    .entry ⟨none, 18, none, none, none, ⟨.angle, 18⟩, none⟩
  else if method = "Tehran" then
    .entry ⟨none, 17.7, none, none, some ⟨.angle, 4.5⟩, ⟨.angle, 14⟩,
      some .Jafari⟩
  else if method = "Jafari" then
    .entry ⟨none, 16, none, none, some ⟨.angle, 4⟩, ⟨.angle, 14⟩,
      some .Jafari⟩
  else if method = "MF" then
    .entry ⟨none, 12, none, none, none, ⟨.angle, 12⟩, none⟩
  else if method ∈ objectPrototypeMembers then .inheritedMember
  else .missing

/-- Normalized forward time difference (`timeDiff` in `src/prayer.ts`). -/
def timeDiff (time1 time2 : ℝ) : ℝ := fixHour (time2 - time1)

/-- `timeDiff` lifted to NaN-aware operands, as used by `getTimes` when a
sunrise/sunset value may be NaN. -/
def timeDiffO (time1 time2 : Option ℝ) : Option ℝ :=
  (osub time2 time1).map fixHour

/-- Asr solver (`asrTime` in `src/prayer.ts`). -/
def asrTime (julianDay latitude factor time : ℝ) : Option ℝ :=
  let decl := (sunPosition (julianDay + time)).1
  let angle := -arccot (factor + tan |latitude - decl|)
  sunAngleTime julianDay latitude angle time false

/-- Night portion for a high-latitude method (`nightPortion` in
`src/prayer.ts`); the orchestrator guarantees the method is present, so
the non-null assertion of the source becomes a plain argument. -/
def nightPortion (hlm : HightLatMethods) (angle night : ℝ) : ℝ :=
  (match hlm with
    | .NightMiddle => 1 / 2
    | .AngleBased => 1 / 60 * angle
    | .OneSeventh => 1 / 7) * night

/-- High-latitude adjustment (`adjustHighlatTime` in `src/prayer.ts`) on
plain real operands. -/
def adjustHighlatTime (hlm : HightLatMethods)
    (time base angle night : ℝ) (ccw : Bool) : ℝ :=
  let portion := nightPortion hlm angle night
  let diff := if ccw then timeDiff time base else timeDiff base time
  if diff < portion then time
  else base + (if ccw then -portion else portion)

/-- High-latitude adjustment on NaN-aware operands, exactly as the
JavaScript executes it: `portion > diff` is false whenever either side is
NaN, so a NaN time or night falls through to `base ± portion`. -/
def adjustHighlatTimeO (hlm : HightLatMethods)
    (time base : Option ℝ) (angle : ℝ) (night : Option ℝ) (ccw : Bool) :
    Option ℝ :=
  let portion := night.map (fun n => nightPortion hlm angle n)
  let diff := if ccw then timeDiffO time base else timeDiffO base time
  if jsGt portion diff then time
  else oadd base (portion.map (fun p => if ccw then -p else p))

/-- The computed prayer times record (`PrayerTimes` in `src/prayer.ts`);
each field is `none` when the JavaScript value is NaN. -/
structure PrayerTimes where
  imsak : Option ℝ
  fajr : Option ℝ
  sunrise : Option ℝ
  dhuhr : Option ℝ
  asr : Option ℝ
  sunset : Option ℝ
  maghrib : Option ℝ
  isha : Option ℝ
  midnight : Option ℝ

/-- The orchestrator (`PrayerManager.getTimes` in `src/prayer.ts`).  The
manager state — the fully defaulted method and the optional high-latitude
method — is passed explicitly; the coordinates are destructured into
latitude, longitude and altitude (default 0 at the call site). -/
def getTimes (method : FullCalculationMethod)
    (hightLatMethod : Option HightLatMethods) (date : JSDate)
    (latitude longitude altitude : ℝ) : PrayerTimes :=
  let julianDay := getJulianDay date - longitude / (15 * 24)
  let adjust := longitude / 15
  let imsak0 := (sunAngleTime julianDay latitude method.imsak.value
    (5 / 24) true).map (fun x => x - adjust)
  let fajr0 := (sunAngleTime julianDay latitude method.fajr
    (5 / 24) true).map (fun x => x - adjust)
  let sunrise := (sunAngleTime julianDay latitude (riseSetAngle altitude)
    (6 / 24) true).map (fun x => x - adjust)
  let dhuhr := some (midDay julianDay (12 / 24) - adjust + method.dhuhr / 60)
  let asr := (asrTime julianDay latitude method.asr.factor
    (13 / 24)).map (fun x => x - adjust)
  let sunset := (sunAngleTime julianDay latitude (riseSetAngle altitude)
    (18 / 24) false).map (fun x => x - adjust)
  let maghrib0 := (sunAngleTime julianDay latitude method.maghrib.value
    (18 / 24) false).map (fun x => x - adjust)
  let isha0 := (sunAngleTime julianDay latitude method.isha.value
    (18 / 24) false).map (fun x => x - adjust)
  let nightTime := timeDiffO sunset sunrise
  let imsak1 := match hightLatMethod with
    | none => imsak0
    | some h => adjustHighlatTimeO h imsak0 sunrise method.imsak.value
        nightTime true
  let fajr1 := match hightLatMethod with
    | none => fajr0
    | some h => adjustHighlatTimeO h fajr0 sunrise method.fajr
        nightTime true
  let maghrib1 := match hightLatMethod with
    | none => maghrib0
    | some h => adjustHighlatTimeO h maghrib0 sunset method.maghrib.value
        nightTime false
  let isha1 := match hightLatMethod with
    | none => isha0
    | some h => adjustHighlatTimeO h isha0 sunset method.isha.value
        nightTime false
  let imsak2 := if method.imsak.type = CalculationTag.minute then
      fajr1.map (fun x => x - method.imsak.value / 60)
    else imsak1
  let maghrib2 := if method.maghrib.type = CalculationTag.minute then
      sunset.map (fun x => x - method.maghrib.value / 60)
    else maghrib1
  let isha2 := if method.isha.type = CalculationTag.minute then
      maghrib2.map (fun x => x - method.isha.value / 60)
    else isha1
  { imsak := imsak2
    fajr := fajr1
    sunrise := sunrise
    dhuhr := dhuhr
    asr := asr
    sunset := sunset
    maghrib := maghrib2
    isha := isha2
    midnight := oadd sunset
      ((if method.midnight = MidnightMethod.Standard then
          timeDiffO sunset sunrise
        else timeDiffO sunset fajr1).map (fun x => x / 2)) }

/-! Claim theorems. -/

/-- C10: `createCalculationMethod` is idempotent — re-defaulting an
already defaulted method (viewed again as a partial method through the
TypeScript subtyping) returns it unchanged, field by field, because
defaulting only fills absent optional fields and passes present fields
through. -/
theorem C10_createCalculationMethod_idempotent (m : CalculationMethod) :
    createCalculationMethod
      (createCalculationMethod m).toCalculationMethod =
      createCalculationMethod m := rfl

/-- C8: the Makkah preset is the only one parametrized by the Ramadan
flag — its isha is `{minute, 90}` normally and `{minute, 120}` during
Ramadan, all other fields of the two results are identical, and every
preset other than Makkah is independent of the flag. -/
theorem C8_makkah_ramadan :
    getCalculationMethod "Makkah" false =
      .entry ⟨none, 19.5, none, none, none, ⟨.minute, 90⟩, none⟩ ∧
    getCalculationMethod "Makkah" true =
      .entry ⟨none, 19.5, none, none, none, ⟨.minute, 120⟩, none⟩ ∧
    ∀ (name : String) (b₁ b₂ : Bool), name ≠ "Makkah" →
      getCalculationMethod name b₁ = getCalculationMethod name b₂ := by
  refine ⟨rfl, rfl, ?_⟩
  intro name b₁ b₂ h
  simp [getCalculationMethod, h]

/-- Witness for C8 at a concrete non-Makkah preset name. -/
theorem C8_makkah_ramadan_witness :
    getCalculationMethod "MWL" false = getCalculationMethod "MWL" true :=
  C8_makkah_ramadan.2.2 "MWL" false true (by decide)

/-- Counterexample to C9 as stated: `"toString"` is not one of the eight
preset names, yet the untyped lookup finds the inherited
`Object.prototype.toString` member, so the result is not the
missing-value sentinel. -/
theorem C9_preset_lookup_cex :
    "toString" ∉
      ["MWL", "ISNA", "Egypt", "Makkah", "Karachi", "Tehran", "Jafari",
        "MF"] ∧
      getCalculationMethod "toString" false ≠ MethodLookup.missing := by
  refine ⟨by decide, ?_⟩
  have h : getCalculationMethod "toString" false =
      MethodLookup.inheritedMember := rfl
  rw [h]
  simp

/-- C9 (amended): looking up any name that is neither one of the eight
presets nor an `Object.prototype` member name returns the missing-value
sentinel `undefined` rather than raising; each of the eight known names
returns that preset's partial method descriptor; and each
`Object.prototype` member name returns the inherited member — defined,
but not a method — still without raising. -/
theorem C9_preset_lookup_amended :
    (∀ (name : String) (b : Bool),
      name ∉ ["MWL", "ISNA", "Egypt", "Makkah", "Karachi", "Tehran",
        "Jafari", "MF"] →
      name ∉ objectPrototypeMembers →
      getCalculationMethod name b = .missing) ∧
    (∀ (name : String) (b : Bool), name ∈ objectPrototypeMembers →
      getCalculationMethod name b = .inheritedMember) ∧
    ∀ b : Bool,
      getCalculationMethod "MWL" b =
        .entry ⟨none, 18, none, none, none, ⟨.angle, 17⟩, none⟩ ∧
      getCalculationMethod "ISNA" b =
        .entry ⟨none, 15, none, none, none, ⟨.angle, 15⟩, none⟩ ∧
      getCalculationMethod "Egypt" b =
        .entry ⟨none, 19.5, none, none, none, ⟨.angle, 17.5⟩, none⟩ ∧
      getCalculationMethod "Makkah" b =
        .entry ⟨none, 19.5, none, none, none,
          ⟨.minute, if b then 120 else 90⟩, none⟩ ∧
      getCalculationMethod "Karachi" b =
        .entry ⟨none, 18, none, none, none, ⟨.angle, 18⟩, none⟩ ∧
      getCalculationMethod "Tehran" b =
        .entry ⟨none, 17.7, none, none, some ⟨.angle, 4.5⟩, ⟨.angle, 14⟩,
          some .Jafari⟩ ∧
      getCalculationMethod "Jafari" b =
        .entry ⟨none, 16, none, none, some ⟨.angle, 4⟩, ⟨.angle, 14⟩,
          some .Jafari⟩ ∧
      getCalculationMethod "MF" b =
        .entry ⟨none, 12, none, none, none, ⟨.angle, 12⟩, none⟩ := by
  refine ⟨?_, ?_, ?_⟩
  · intro name b hn hp
    simp only [List.mem_cons, List.mem_singleton, not_or] at hn
    obtain ⟨h1, h2, h3, h4, h5, h6, h7, h8⟩ := hn
    simp [getCalculationMethod, h1, h2, h3, h4, h5, h6, h7, h8, hp]
  · intro name b hp
    simp only [objectPrototypeMembers, List.mem_cons, List.not_mem_nil,
      or_false] at hp
    rcases hp with rfl | rfl | rfl | rfl | rfl | rfl | rfl | rfl | rfl |
      rfl | rfl | rfl <;> rfl
  · intro b
    exact ⟨rfl, rfl, rfl, rfl, rfl, rfl, rfl, rfl⟩

/-- Witness for C9 (amended) at the concrete unknown name of the spec
scenario. -/
theorem C9_preset_lookup_amended_witness :
    getCalculationMethod "NotAMethod" false = MethodLookup.missing :=
  C9_preset_lookup_amended.1 "NotAMethod" false (by decide) (by decide)

/-- C7: for a positive modulus, `fix` returns the true (floor-based)
modulo, lies in `[0, m)`, and is periodic with period `m`. -/
theorem C7_fix_range_periodic (x m : ℝ) (hm : 0 < m) :
    0 ≤ fix x m ∧ fix x m < m ∧ fix x m = x - m * ⌊x / m⌋ ∧
      ∀ k : ℤ, fix (x + k * m) m = fix x m :=
  ⟨fix_nonneg x m hm, fix_lt x m hm, fix_eq_floor_mod x m hm,
    fun k => fix_add_int_mul x m k hm⟩

/-- Witness for C7 at `x = -5`, `m = 24`. -/
theorem C7_fix_range_periodic_witness :
    0 < (24 : ℝ) ∧
      (0 ≤ fix (-5) 24 ∧ fix (-5) 24 < 24 ∧
        fix (-5) 24 = -5 - 24 * ⌊(-5 : ℝ) / 24⌋ ∧
        ∀ k : ℤ, fix (-5 + k * 24) 24 = fix (-5) 24) :=
  ⟨by norm_num, C7_fix_range_periodic (-5) 24 (by norm_num)⟩

/-- Evaluation of the concrete forward difference used by the C1
instances: `timeDiff 3 6 = 3`. -/
theorem timeDiff_three_six : timeDiff 3 6 = 3 := by
  have hfloor : ⌊(3 : ℝ) / 24⌋ = 0 := by
    rw [Int.floor_eq_iff]
    constructor <;> norm_num
  unfold timeDiff fixHour
  rw [show (6 : ℝ) - 3 = 3 by norm_num,
    fix_eq_floor_mod 3 24 (by norm_num), hfloor]
  norm_num

/-- Counterexample to C1 as stated: at `time = 3`, `anchor = 6`,
`night = 8`, NightMiddle portion `4` and forward difference `3`, the
portion exceeds the difference, yet `adjustHighlatTime` returns the
original time `3`, not `anchor - portion = 2` as the claim predicts. -/
theorem C1_highlat_branch_cex :
    timeDiff 3 6 < nightPortion .NightMiddle 0 8 ∧
      adjustHighlatTime .NightMiddle 3 6 0 8 true ≠
        6 - nightPortion .NightMiddle 0 8 := by
  have hp : nightPortion HightLatMethods.NightMiddle 0 8 = 4 := by
    norm_num [nightPortion]
  have hlt : timeDiff 3 6 < nightPortion HightLatMethods.NightMiddle 0 8 := by
    rw [timeDiff_three_six, hp]; norm_num
  refine ⟨hlt, ?_⟩
  have hval : adjustHighlatTime HightLatMethods.NightMiddle 3 6 0 8 true = 3 := by
    simp only [adjustHighlatTime, if_true]
    rw [if_pos hlt]
  rw [hval, hp]
  norm_num

/-- C1 (amended): `adjustHighlatTime` keeps the original time when the
night portion exceeds the forward difference to the anchor, and otherwise
(portion `≤` diff) replaces it with `anchor - portion` on the before-dawn
side and `anchor + portion` on the after-dusk side — the opposite
assignment of outcomes to the two branches from the one claimed. -/
theorem C1_highlat_branch_amended (hlm : HightLatMethods)
    (time base angle night : ℝ) (ccw : Bool) :
    ((if ccw then timeDiff time base else timeDiff base time) <
        nightPortion hlm angle night →
      adjustHighlatTime hlm time base angle night ccw = time) ∧
    (nightPortion hlm angle night ≤
        (if ccw then timeDiff time base else timeDiff base time) →
      adjustHighlatTime hlm time base angle night ccw =
        base + (if ccw then -nightPortion hlm angle night
          else nightPortion hlm angle night)) := by
  constructor
  · intro h
    simp only [adjustHighlatTime]
    rw [if_pos h]
  · intro h
    simp only [adjustHighlatTime]
    rw [if_neg (not_lt.2 h)]

/-- Witness for C1 (amended) at the concrete instance of the
counterexample. -/
theorem C1_highlat_branch_amended_witness :
    timeDiff 3 6 < nightPortion .NightMiddle 0 8 ∧
      adjustHighlatTime .NightMiddle 3 6 0 8 true = 3 := by
  have hp : nightPortion HightLatMethods.NightMiddle 0 8 = 4 := by
    norm_num [nightPortion]
  have hlt : timeDiff 3 6 < nightPortion HightLatMethods.NightMiddle 0 8 := by
    rw [timeDiff_three_six, hp]; norm_num
  exact ⟨hlt,
    (C1_highlat_branch_amended .NightMiddle 3 6 0 8 true).1 hlt⟩

/-- C5: in `getTimes`, a minute-typed imsak/maghrib/isha marker overrides
the angle-derived value after any high-latitude clamping, as
`imsak = fajr - imsakMinutes/60`, `maghrib = sunset - maghribMinutes/60`
and `isha = maghrib - ishaMinutes/60`, where the maghrib read by isha is
the maghrib value of the returned record (minute-derived when maghrib is
minute-typed, angle-derived otherwise). -/
theorem C5_minute_overrides (m : FullCalculationMethod)
    (hlm : Option HightLatMethods) (d : JSDate) (lat lon alt : ℝ) :
    (m.imsak.type = CalculationTag.minute →
      (getTimes m hlm d lat lon alt).imsak =
        (getTimes m hlm d lat lon alt).fajr.map
          (fun x => x - m.imsak.value / 60)) ∧
    (m.maghrib.type = CalculationTag.minute →
      (getTimes m hlm d lat lon alt).maghrib =
        (getTimes m hlm d lat lon alt).sunset.map
          (fun x => x - m.maghrib.value / 60)) ∧
    (m.isha.type = CalculationTag.minute →
      (getTimes m hlm d lat lon alt).isha =
        (getTimes m hlm d lat lon alt).maghrib.map
          (fun x => x - m.isha.value / 60)) := by
  refine ⟨fun h => ?_, fun h => ?_, fun h => ?_⟩ <;>
    simp only [getTimes] <;> rw [if_pos h]

/-- Witness for C5 on the completed Makkah preset, whose imsak, maghrib
and isha are all minute-typed. -/
theorem C5_minute_overrides_witness :
    (createCalculationMethod
        ⟨none, 19.5, none, none, none, ⟨.minute, 90⟩, none⟩).imsak.type =
      CalculationTag.minute ∧
    (getTimes
        (createCalculationMethod
          ⟨none, 19.5, none, none, none, ⟨.minute, 90⟩, none⟩)
        none ⟨2021, 3, 12⟩ 38.8976763 (-77.036529) 18).isha =
      (getTimes
        (createCalculationMethod
          ⟨none, 19.5, none, none, none, ⟨.minute, 90⟩, none⟩)
        none ⟨2021, 3, 12⟩ 38.8976763 (-77.036529) 18).maghrib.map
        (fun x => x -
          (createCalculationMethod
            ⟨none, 19.5, none, none, none, ⟨.minute, 90⟩, none⟩).isha.value
            / 60) :=
  ⟨rfl,
    (C5_minute_overrides
      (createCalculationMethod
        ⟨none, 19.5, none, none, none, ⟨.minute, 90⟩, none⟩)
      none ⟨2021, 3, 12⟩ 38.8976763 (-77.036529) 18).2.2 rfl⟩

/-- C6: `getTimes` has the frame property behind the claim that switching
a method's isha (or maghrib, or imsak) between angle and minute form
changes only that field and its dependents: two methods that differ only
in isha produce records differing at most in isha; differing only in
maghrib, at most in maghrib and isha; differing only in imsak, at most in
imsak — in particular sunrise, dhuhr, asr and sunset are unchanged in all
three cases. -/
theorem C6_marker_frame (m₁ m₂ : FullCalculationMethod)
    (hlm : Option HightLatMethods) (d : JSDate) (lat lon alt : ℝ) :
    (m₁.imsak = m₂.imsak → m₁.fajr = m₂.fajr → m₁.dhuhr = m₂.dhuhr →
      m₁.asr = m₂.asr → m₁.maghrib = m₂.maghrib →
      m₁.midnight = m₂.midnight →
      (getTimes m₁ hlm d lat lon alt).imsak =
        (getTimes m₂ hlm d lat lon alt).imsak ∧
      (getTimes m₁ hlm d lat lon alt).fajr =
        (getTimes m₂ hlm d lat lon alt).fajr ∧
      (getTimes m₁ hlm d lat lon alt).sunrise =
        (getTimes m₂ hlm d lat lon alt).sunrise ∧
      (getTimes m₁ hlm d lat lon alt).dhuhr =
        (getTimes m₂ hlm d lat lon alt).dhuhr ∧
      (getTimes m₁ hlm d lat lon alt).asr =
        (getTimes m₂ hlm d lat lon alt).asr ∧
      (getTimes m₁ hlm d lat lon alt).sunset =
        (getTimes m₂ hlm d lat lon alt).sunset ∧
      (getTimes m₁ hlm d lat lon alt).maghrib =
        (getTimes m₂ hlm d lat lon alt).maghrib ∧
      (getTimes m₁ hlm d lat lon alt).midnight =
        (getTimes m₂ hlm d lat lon alt).midnight) ∧
    (m₁.imsak = m₂.imsak → m₁.fajr = m₂.fajr → m₁.dhuhr = m₂.dhuhr →
      m₁.asr = m₂.asr → m₁.isha = m₂.isha → m₁.midnight = m₂.midnight →
      (getTimes m₁ hlm d lat lon alt).imsak =
        (getTimes m₂ hlm d lat lon alt).imsak ∧
      (getTimes m₁ hlm d lat lon alt).fajr =
        (getTimes m₂ hlm d lat lon alt).fajr ∧
      (getTimes m₁ hlm d lat lon alt).sunrise =
        (getTimes m₂ hlm d lat lon alt).sunrise ∧
      (getTimes m₁ hlm d lat lon alt).dhuhr =
        (getTimes m₂ hlm d lat lon alt).dhuhr ∧
      (getTimes m₁ hlm d lat lon alt).asr =
        (getTimes m₂ hlm d lat lon alt).asr ∧
      (getTimes m₁ hlm d lat lon alt).sunset =
        (getTimes m₂ hlm d lat lon alt).sunset ∧
      (getTimes m₁ hlm d lat lon alt).midnight =
        (getTimes m₂ hlm d lat lon alt).midnight) ∧
    (m₁.fajr = m₂.fajr → m₁.dhuhr = m₂.dhuhr → m₁.asr = m₂.asr →
      m₁.maghrib = m₂.maghrib → m₁.isha = m₂.isha →
      m₁.midnight = m₂.midnight →
      (getTimes m₁ hlm d lat lon alt).fajr =
        (getTimes m₂ hlm d lat lon alt).fajr ∧
      (getTimes m₁ hlm d lat lon alt).sunrise =
        (getTimes m₂ hlm d lat lon alt).sunrise ∧
      (getTimes m₁ hlm d lat lon alt).dhuhr =
        (getTimes m₂ hlm d lat lon alt).dhuhr ∧
      (getTimes m₁ hlm d lat lon alt).asr =
        (getTimes m₂ hlm d lat lon alt).asr ∧
      (getTimes m₁ hlm d lat lon alt).sunset =
        (getTimes m₂ hlm d lat lon alt).sunset ∧
      (getTimes m₁ hlm d lat lon alt).maghrib =
        (getTimes m₂ hlm d lat lon alt).maghrib ∧
      (getTimes m₁ hlm d lat lon alt).isha =
        (getTimes m₂ hlm d lat lon alt).isha ∧
      (getTimes m₁ hlm d lat lon alt).midnight =
        (getTimes m₂ hlm d lat lon alt).midnight) := by
  obtain ⟨i₁, f₁, dh₁, a₁, mg₁, is₁, mid₁⟩ := m₁
  obtain ⟨i₂, f₂, dh₂, a₂, mg₂, is₂, mid₂⟩ := m₂
  refine ⟨fun h1 h2 h3 h4 h5 h6 => ?_, fun h1 h2 h3 h4 h5 h6 => ?_,
    fun h1 h2 h3 h4 h5 h6 => ?_⟩
  · have e1 : i₁ = i₂ := h1
    have e2 : f₁ = f₂ := h2
    have e3 : dh₁ = dh₂ := h3
    have e4 : a₁ = a₂ := h4
    have e5 : mg₁ = mg₂ := h5
    have e6 : mid₁ = mid₂ := h6
    subst e1 e2 e3 e4 e5 e6
    exact ⟨rfl, rfl, rfl, rfl, rfl, rfl, rfl, rfl⟩
  · have e1 : i₁ = i₂ := h1
    have e2 : f₁ = f₂ := h2
    have e3 : dh₁ = dh₂ := h3
    have e4 : a₁ = a₂ := h4
    have e5 : is₁ = is₂ := h5
    have e6 : mid₁ = mid₂ := h6
    subst e1 e2 e3 e4 e5 e6
    exact ⟨rfl, rfl, rfl, rfl, rfl, rfl, rfl⟩
  · have e1 : f₁ = f₂ := h1
    have e2 : dh₁ = dh₂ := h2
    have e3 : a₁ = a₂ := h3
    have e4 : mg₁ = mg₂ := h4
    have e5 : is₁ = is₂ := h5
    have e6 : mid₁ = mid₂ := h6
    subst e1 e2 e3 e4 e5 e6
    exact ⟨rfl, rfl, rfl, rfl, rfl, rfl, rfl, rfl⟩

/-- Witness for C6: two completed methods differing only in the isha
marker (angle 17 versus minute 90) yield identical sunrise fields. -/
theorem C6_marker_frame_witness :
    (getTimes
        (createCalculationMethod ⟨none, 18, none, none, none,
          ⟨.angle, 17⟩, none⟩)
        none ⟨2021, 3, 12⟩ 38.8976763 (-77.036529) 18).sunrise =
      (getTimes
        (createCalculationMethod ⟨none, 18, none, none, none,
          ⟨.minute, 90⟩, none⟩)
        none ⟨2021, 3, 12⟩ 38.8976763 (-77.036529) 18).sunrise :=
  ((C6_marker_frame
      (createCalculationMethod ⟨none, 18, none, none, none,
        ⟨.angle, 17⟩, none⟩)
      (createCalculationMethod ⟨none, 18, none, none, none,
        ⟨.minute, 90⟩, none⟩)
      none ⟨2021, 3, 12⟩ 38.8976763 (-77.036529) 18).1
    rfl rfl rfl rfl rfl rfl).2.2.1

/-- Degree cosine of 90 is zero. -/
theorem cos_ninety : cos 90 = 0 := by
  unfold cos toRadians
  rw [show (90 : ℝ) * (Real.pi / 180) = Real.pi / 2 by ring]
  exact Real.cos_pi_div_two

/-- At latitude 90 the denominator of the `sunAngleTime` quotient is zero
for every date, angle and seed, so the solver yields NaN. -/
theorem sunAngleTime_lat90 (jd a t : ℝ) (c : Bool) :
    sunAngleTime jd 90 a t c = none := by
  simp only [sunAngleTime]
  exact if_pos (Or.inl (by rw [cos_ninety, mul_zero]))

/-- The asr solver also yields NaN at latitude 90. -/
theorem asrTime_lat90 (jd f t : ℝ) : asrTime jd 90 f t = none := by
  simp only [asrTime]
  exact sunAngleTime_lat90 jd _ t false

/-- C3: when the argument of the arccosine inside `sunAngleTime` falls
outside `[-1, 1]` (including the division-by-zero cases that make the
JavaScript quotient infinite), the solver returns NaN, and with no
high-latitude method configured that NaN is not trapped: a NaN fajr makes
the returned fajr NaN, makes a minute-typed imsak NaN, and makes midnight
NaN under the Jafari midnight method. -/
theorem C3_nan_propagation :
    (∀ (jd lat angle t : ℝ) (ccw : Bool),
      (cos (sunPosition (jd + t)).1 * cos lat = 0 ∨
        (-sin angle - sin (sunPosition (jd + t)).1 * sin lat) /
            (cos (sunPosition (jd + t)).1 * cos lat) < -1 ∨
        1 < (-sin angle - sin (sunPosition (jd + t)).1 * sin lat) /
            (cos (sunPosition (jd + t)).1 * cos lat)) →
      sunAngleTime jd lat angle t ccw = none) ∧
    (∀ (m : FullCalculationMethod) (d : JSDate) (lat lon alt : ℝ),
      sunAngleTime (getJulianDay d - lon / (15 * 24)) lat m.fajr (5 / 24)
          true = none →
      (getTimes m none d lat lon alt).fajr = none ∧
      (m.imsak.type = CalculationTag.minute →
        (getTimes m none d lat lon alt).imsak = none) ∧
      (m.midnight = MidnightMethod.Jafari →
        (getTimes m none d lat lon alt).midnight = none)) := by
  constructor
  · intro jd lat angle t ccw h
    simp only [sunAngleTime]
    exact if_pos h
  · intro m d lat lon alt h
    refine ⟨?_, fun hi => ?_, fun hmid => ?_⟩
    · simp [getTimes, h]
    · simp [getTimes, h, hi]
    · simp [getTimes, h, hmid, timeDiffO]

/-- Witness for C3 at latitude 90 with the completed Jafari preset. -/
theorem C3_nan_propagation_witness :
    sunAngleTime (getJulianDay ⟨2021, 3, 12⟩ - 0 / (15 * 24)) 90 16
        (5 / 24) true = none ∧
      (getTimes
          (createCalculationMethod
            ⟨none, 16, none, none, some ⟨.angle, 4⟩, ⟨.angle, 14⟩,
              some .Jafari⟩)
          none ⟨2021, 3, 12⟩ 90 0 0).fajr = none ∧
      (getTimes
          (createCalculationMethod
            ⟨none, 16, none, none, some ⟨.angle, 4⟩, ⟨.angle, 14⟩,
              some .Jafari⟩)
          none ⟨2021, 3, 12⟩ 90 0 0).midnight = none := by
  have h1 : sunAngleTime (getJulianDay ⟨2021, 3, 12⟩ - 0 / (15 * 24)) 90 16
      (5 / 24) true = none :=
    C3_nan_propagation.1 _ 90 16 (5 / 24) true
      (Or.inl (by rw [cos_ninety, mul_zero]))
  have h2 := C3_nan_propagation.2
    (createCalculationMethod
      ⟨none, 16, none, none, some ⟨.angle, 4⟩, ⟨.angle, 14⟩, some .Jafari⟩)
    ⟨2021, 3, 12⟩ 90 0 0 h1
  exact ⟨h1, h2.1, h2.2.2 rfl⟩

/-- Counterexample to C2 as stated: at latitude 90 not even sunrise and
sunset exist, the night duration is NaN, and the high-latitude adjustment
(whose comparison against NaN is false) reproduces a NaN anchor, so fajr
and isha of `getTimes` are NaN despite the configured NightMiddle method. -/
theorem C2_highlat_polar_cex :
    (getTimes
        (createCalculationMethod
          ⟨none, 18, none, none, none, ⟨.angle, 17⟩, none⟩)
        (some .NightMiddle) ⟨2021, 3, 12⟩ 90 0 0).fajr = none ∧
      (getTimes
        (createCalculationMethod
          ⟨none, 18, none, none, none, ⟨.angle, 17⟩, none⟩)
        (some .NightMiddle) ⟨2021, 3, 12⟩ 90 0 0).isha = none := by
  constructor <;>
    simp [getTimes, sunAngleTime_lat90, asrTime_lat90,
      adjustHighlatTimeO, timeDiffO, createCalculationMethod]

/-- When the anchor and the night duration are both non-NaN, the
high-latitude adjustment never returns NaN: a NaN raw time makes the
JavaScript comparison false and falls through to `anchor ± portion`. -/
theorem adjustHighlatTimeO_ne_none (hlm : HightLatMethods)
    (time : Option ℝ) (b angle n : ℝ) (ccw : Bool) :
    adjustHighlatTimeO hlm time (some b) angle (some n) ccw ≠ none := by
  cases time with
  | none =>
    cases ccw <;> simp [adjustHighlatTimeO, timeDiffO]
  | some x =>
    simp only [adjustHighlatTimeO, Option.map_some']
    split <;> split <;> simp

/-- C2 (amended): for every date and coordinates at which the raw sunrise
and sunset computations are not NaN, `getTimes` with a high-latitude
method configured returns non-NaN fajr and isha, even when the raw
fajr/isha solar-angle crossings do not exist. -/
theorem C2_highlat_fajr_isha_defined (m : FullCalculationMethod)
    (h : HightLatMethods) (d : JSDate) (lat lon alt : ℝ)
    (hsr : sunAngleTime (getJulianDay d - lon / (15 * 24)) lat
      (riseSetAngle alt) (6 / 24) true ≠ none)
    (hss : sunAngleTime (getJulianDay d - lon / (15 * 24)) lat
      (riseSetAngle alt) (18 / 24) false ≠ none) :
    (getTimes m (some h) d lat lon alt).fajr ≠ none ∧
      (getTimes m (some h) d lat lon alt).isha ≠ none := by
  obtain ⟨rs, hrs⟩ := Option.ne_none_iff_exists'.1 hsr
  obtain ⟨ss, hss2⟩ := Option.ne_none_iff_exists'.1 hss
  constructor
  · simp only [getTimes, hrs, hss2, Option.map_some', timeDiffO,
      osub_some_some]
    exact adjustHighlatTimeO_ne_none h _ _ _ _ true
  · simp only [getTimes, hrs, hss2, Option.map_some', timeDiffO,
      osub_some_some]
    by_cases hisha : m.isha.type = CalculationTag.minute
    · rw [if_pos hisha]
      by_cases hmag : m.maghrib.type = CalculationTag.minute
      · rw [if_pos hmag]
        simp
      · rw [if_neg hmag]
        rw [Ne, Option.map_eq_none']
        exact adjustHighlatTimeO_ne_none h _ _ _ _ false
    · rw [if_neg hisha]
      exact adjustHighlatTimeO_ne_none h _ _ _ _ false

/-- Degree cosine of 0 is 1. -/
theorem cos_zero_deg : cos 0 = 1 := by
  unfold cos toRadians
  rw [zero_mul, Real.cos_zero]

/-- Degree sine of 0 is 0. -/
theorem sin_zero_deg : sin 0 = 0 := by
  unfold sin toRadians
  rw [zero_mul, Real.sin_zero]

/-- Bound on the degree sine by its (radian) argument. -/
theorem abs_sin_deg_le (x : ℝ) : |sin x| ≤ |x| * (Real.pi / 180) := by
  unfold sin toRadians
  calc |Real.sin (x * (Real.pi / 180))| ≤ |x * (Real.pi / 180)| :=
        Real.abs_sin_le_abs
    _ = |x| * (Real.pi / 180) := by
        rw [abs_mul, abs_of_pos (by positivity : (0 : ℝ) < Real.pi / 180)]

/-- The degree sine is bounded by one. -/
theorem abs_sin_deg_le_one (x : ℝ) : |sin x| ≤ 1 :=
  abs_le.mpr ⟨Real.neg_one_le_sin _, Real.sin_le_one _⟩

/-- The degree cosine of the degree arcsine is the usual square root. -/
theorem cos_arcsin_deg (v : ℝ) : cos (arcsin v) = Real.sqrt (1 - v ^ 2) := by
  unfold cos arcsin toRadians toDegrees
  rw [show Real.arcsin v * 180 / Real.pi * (Real.pi / 180) = Real.arcsin v by
    field_simp]
  exact Real.cos_arcsin v

/-- The solar declination produced by `sunPosition` always has a degree
cosine of at least 0.9 for any modern date: the obliquity term keeps the
declination within roughly 24 degrees of the equator. -/
theorem cos_decl_ge (x : ℝ) (h : |x - 2451545| ≤ 1000000) :
    (0.9 : ℝ) ≤ cos (sunPosition x).1 := by
  have key : ∀ e L : ℝ, |e| ≤ 24 →
      (0.9 : ℝ) ≤ Real.sqrt (1 - (sin e * sin L) ^ 2) := by
    intro e L he
    have hpi := Real.pi_lt_d4
    have h1 : |sin e| ≤ 24 * (Real.pi / 180) :=
      (abs_sin_deg_le e).trans
        (mul_le_mul_of_nonneg_right he (by positivity))
    have h1b : |sin e| ≤ 0.41888 := by nlinarith [h1]
    have h2 : |sin L| ≤ 1 := abs_sin_deg_le_one L
    have h3 : |sin e * sin L| ≤ 0.41888 := by
      rw [abs_mul]
      calc |sin e| * |sin L| ≤ 0.41888 * 1 :=
            mul_le_mul h1b h2 (abs_nonneg _) (by norm_num)
        _ = 0.41888 := by norm_num
    have h4 : (sin e * sin L) ^ 2 ≤ 0.1755 := by
      nlinarith [abs_le.1 h3]
    rw [Real.le_sqrt (by norm_num) (by nlinarith)]
    nlinarith
  simp only [sunPosition]
  rw [cos_arcsin_deg]
  apply key
  rw [abs_le]
  constructor <;> nlinarith [abs_le.1 h]

/-- At sea level the rise/set depression angle is exactly 0.833 degrees. -/
theorem riseSetAngle_zero : riseSetAngle 0 = 0.833 := by
  unfold riseSetAngle
  rw [show EARTH_RADIUS / (EARTH_RADIUS + 0) = 1 by
    unfold EARTH_RADIUS; norm_num]
  unfold arccos toDegrees
  rw [Real.arccos_one]
  norm_num

/-- When the denominator is positive and dominates the numerator, the
arccosine argument of `sunAngleTime` is in range and the result is not
NaN. -/
theorem sunAngleTime_ne_none_of (jd lat angle t : ℝ) (ccw : Bool)
    (hden : 0 < cos (sunPosition (jd + t)).1 * cos lat)
    (hnum : |(-sin angle - sin (sunPosition (jd + t)).1 * sin lat)| ≤
      cos (sunPosition (jd + t)).1 * cos lat) :
    sunAngleTime jd lat angle t ccw ≠ none := by
  simp only [sunAngleTime]
  rw [if_neg]
  · simp
  · push_neg
    refine ⟨ne_of_gt hden, ?_, ?_⟩
    · rw [le_div_iff₀ hden]
      nlinarith [abs_le.1 hnum]
    · rw [div_le_one hden]
      exact (abs_le.1 hnum).2

/-- The Julian day of 2021-04-12 (month index 3). -/
theorem getJulianDay_20210412 : getJulianDay ⟨2021, 3, 12⟩ = 2459316.5 := by
  have hfl : ⌊(365.2425 : ℝ) * 2021 + 30.6001 * 4⌋ = 738277 := by
    rw [Int.floor_eq_iff]
    constructor <;> norm_num
  simp only [getJulianDay]
  norm_num [hfl]

/-- On 2021-04-12 at the equator and sea level the rise/set solver is
defined at any seed within the day. -/
theorem sunAngle_equator_defined (t : ℝ) (c : Bool)
    (ht0 : 0 ≤ t) (ht1 : t ≤ 1) :
    sunAngleTime (getJulianDay ⟨2021, 3, 12⟩ - 0 / (15 * 24)) 0
      (riseSetAngle 0) t c ≠ none := by
  have hjd : getJulianDay ⟨2021, 3, 12⟩ - 0 / (15 * 24) = 2459316.5 := by
    rw [getJulianDay_20210412]; norm_num
  have habs : |getJulianDay ⟨2021, 3, 12⟩ - 0 / (15 * 24) + t - 2451545| ≤
      1000000 := by
    rw [hjd, abs_le]
    constructor <;> nlinarith
  have hcd := cos_decl_ge (getJulianDay ⟨2021, 3, 12⟩ - 0 / (15 * 24) + t)
    habs
  apply sunAngleTime_ne_none_of
  · rw [cos_zero_deg, mul_one]
    linarith
  · rw [cos_zero_deg, mul_one, sin_zero_deg, mul_zero, sub_zero,
      riseSetAngle_zero, abs_neg]
    have h1 : |sin 0.833| ≤ 0.833 * (Real.pi / 180) := by
      have h := abs_sin_deg_le (0.833 : ℝ)
      rwa [abs_of_pos (by norm_num : (0 : ℝ) < 0.833)] at h
    have hpi := Real.pi_lt_d4
    have h2 : |sin 0.833| ≤ 0.9 := by nlinarith
    exact h2.trans hcd

/-- Witness for C2 (amended) on 2021-04-12 at the equator with the
completed MWL preset and the NightMiddle high-latitude method. -/
theorem C2_highlat_fajr_isha_defined_witness :
    (sunAngleTime (getJulianDay ⟨2021, 3, 12⟩ - 0 / (15 * 24)) 0
        (riseSetAngle 0) (6 / 24) true ≠ none) ∧
    (sunAngleTime (getJulianDay ⟨2021, 3, 12⟩ - 0 / (15 * 24)) 0
        (riseSetAngle 0) (18 / 24) false ≠ none) ∧
    ((getTimes
        (createCalculationMethod
          ⟨none, 18, none, none, none, ⟨.angle, 17⟩, none⟩)
        (some .NightMiddle) ⟨2021, 3, 12⟩ 0 0 0).fajr ≠ none ∧
      (getTimes
        (createCalculationMethod
          ⟨none, 18, none, none, none, ⟨.angle, 17⟩, none⟩)
        (some .NightMiddle) ⟨2021, 3, 12⟩ 0 0 0).isha ≠ none) := by
  have h6 := sunAngle_equator_defined (6 / 24) true (by norm_num)
    (by norm_num)
  have h18 := sunAngle_equator_defined (18 / 24) false (by norm_num)
    (by norm_num)
  exact ⟨h6, h18,
    C2_highlat_fajr_isha_defined _ .NightMiddle ⟨2021, 3, 12⟩ 0 0 0 h6 h18⟩

end Praye
